import Mathlib

/-!
Verification of the World Bank data-explorer dashboard (src/app.py) against
its specification.

The app is a single data-flow pipeline over in-memory tables:
read CSV (wide World Bank format) → melt to long form → drop rows with a
missing value → coerce the Year column to numeric → sort by Year →
filter by user-selected countries → render time-series charts, per-country
summary statistics, and a correlation view built on an inner join of two
indicator tables.

We embed the tables shallowly.  A pandas DataFrame is column-major, so the
wide input table is a list of row identities (the four id columns kept by
the melt) together with a list of year columns, each carrying the column
header string and the per-row cell values; a missing cell (NaN) is `none`.
Real-valued cells are `Rat` (no claim depends on float rounding).
-/

namespace WorldBankApp

/-- The four id columns that `melt` keeps on every row:
Country Name, Country Code, Indicator Name, Indicator Code. -/
structure RowId where
  countryName : String
  countryCode : String
  indicatorName : String
  indicatorCode : String
deriving DecidableEq

/-- The wide-format table produced by `pd.read_csv(csv_path, skiprows=4)`:
one `RowId` per data row and one entry of `cols` per non-id column, holding
the column header (a year string such as "1960") and the column's cells,
aligned with `rows`. -/
structure WideTable where
  rows : List RowId
  cols : List (String × List (Option Rat))
deriving DecidableEq

/-- One row of the melted (long-form) frame, before the Year coercion:
the id columns, the year column header as a string, and the cell value. -/
structure LongRow where
  id : RowId
  year : String
  value : Option Rat
deriving DecidableEq

/-- One row of the table returned by `load_generic_data`, after
`pd.to_numeric(df_long["Year"], errors="coerce")`: the year is numeric
(`some n`) or the missing marker NaN (`none`). -/
structure ObsRow where
  id : RowId
  year : Option Int
  value : Option Rat
deriving DecidableEq

/-- `df.melt(id_vars=[...], var_name="Year", value_name=value_name)`:
column-major traversal, one output row per (year column, data row) pair,
carrying the id columns, the column header as Year and the cell as value. -/
def melt (t : WideTable) : List LongRow :=
  (t.cols.map (fun cv => (t.rows.zip cv.2).map
    (fun rv => LongRow.mk rv.1 cv.1 rv.2))).flatten

/-- Numeral value of a digit list, most significant digit first. -/
def digitsToNat (cs : List Char) : Nat :=
  cs.foldl (fun n c => n * 10 + (c.toNat - 48)) 0

/-- `pd.to_numeric(year, errors="coerce")` on a year-column header: an
optional leading minus sign followed by decimal digits parses as an
integer (World Bank year headers are plain digit strings); any other
header coerces to the missing marker NaN. -/
def toNumericYear (s : String) : Option Int :=
  match s.data with
  | [] => none
  | '-' :: cs =>
      if !cs.isEmpty && cs.all Char.isDigit then
        some (-(digitsToNat cs : Int))
      else none
  | cs =>
      if cs.all Char.isDigit then some ((digitsToNat cs : Int)) else none

/-- The Year coercion applied to one melted row. -/
def coerceRow (lr : LongRow) : ObsRow :=
  ObsRow.mk lr.id (toNumericYear lr.year) lr.value

/-- Comparison used by `sort_values("Year")`: ascending on numeric years,
with the missing marker (NaN) placed last (`na_position` default). -/
def yearLE : Option Int → Option Int → Bool
  | some a, some b => decide (a ≤ b)
  | some _, none => true
  | none, some _ => false
  | none, none => true

/-- Row comparison for `df_long.sort_values("Year")`. -/
def obsLE (a b : ObsRow) : Bool :=
  yearLE a.year b.year

/-- `load_generic_data(csv_path, value_name)` applied to the parsed wide
table: melt, `dropna(subset=[value_name])`, coerce Year to numeric,
sort by Year. -/
def load_generic_data (t : WideTable) : List ObsRow :=
  (((melt t).filter (fun lr => lr.value.isSome)).map coerceRow).mergeSort obsLE

/-- Line 38: `df[df["Country Name"].isin(selected_countries)]`. -/
def filterCountries (selected : List String) (df : List ObsRow) : List ObsRow :=
  df.filter (fun r => selected.contains r.id.countryName)

/-- The join key of lines 84-89: (Country Name, Country Code, Year). -/
def obsKey (r : ObsRow) : String × String × Option Int :=
  (r.id.countryName, r.id.countryCode, r.year)

/-- One row of the table produced by `pd.merge(..., on=["Country Name",
"Country Code", "Year"], suffixes=...)`: the shared key columns plus the
suffixed remaining columns of both sides. -/
structure MergedRow where
  countryName : String
  countryCode : String
  year : Option Int
  indicatorNameX : String
  indicatorCodeX : String
  valueX : Option Rat
  indicatorNameY : String
  indicatorCodeY : String
  valueY : Option Rat
deriving DecidableEq

/-- The merged row built from a matching pair of observation rows. -/
def mergeRow (a b : ObsRow) : MergedRow :=
  MergedRow.mk a.id.countryName a.id.countryCode a.year
    a.id.indicatorName a.id.indicatorCode a.value
    b.id.indicatorName b.id.indicatorCode b.value

/-- Lines 84-89: `pd.merge` with the default `how="inner"`: one output row
per pair of input rows agreeing on (Country Name, Country Code, Year),
in left-frame order. -/
def mergeInner (A B : List ObsRow) : List MergedRow :=
  A.flatMap (fun a =>
    (B.filter (fun b => decide (obsKey a = obsKey b))).map (mergeRow a))

/-- The key columns of a merged row. -/
def mergedKey (m : MergedRow) : String × String × Option Int :=
  (m.countryName, m.countryCode, m.year)

/-- What one rerun of `main()` emits to the page, in order.  Chart payloads
carry the data handed to matplotlib; the scalar Pearson/p-value text of the
correlation view is part of its chart branch and is abstracted into the
`corrChart` payload. -/
inductive RenderItem where
  | title (s : String)
  | subheader (s : String)
  | warningItem (s : String)
  | writeItem (s : String)
  | seriesChart (leftLabel rightLabel : String)
      (leftSeries rightSeries : List (String × List (Option Int × Option Rat)))
  | statsTable (name : String) (rows : List ObsRow)
  | corrChart (xLabel yLabel : String) (merged : List MergedRow)
deriving DecidableEq

/-- Look up one of the per-indicator filtered tables by dataset name
(`filtered[name]`); the app only looks up names present in the dict. -/
def lookupTable (filtered : List (String × List ObsRow)) (name : String) :
    List ObsRow :=
  ((filtered.find? (fun nd => nd.1 == name)).map (fun nd => nd.2)).getD []

/-- Lines 50-53 / 59-62: for each selected country, the (Year, value)
points of that country's rows in the chosen dataset, in table order. -/
def seriesFor (filtered : List (String × List ObsRow)) (name : String)
    (selected : List String) :
    List (String × List (Option Int × Option Rat)) :=
  selected.map (fun c =>
    (c, ((lookupTable filtered name).filter
          (fun r => r.id.countryName == c)).map (fun r => (r.year, r.value))))

/-- Lines 46-69: the time-series view.  Identical axis choices yield only a
warning; otherwise a dual-axis chart of the per-country series. -/
def timeSeriesView (selected : List String)
    (filtered : List (String × List ObsRow)) (l r : String) :
    List RenderItem :=
  if l = r then
    [RenderItem.warningItem
      "Please select two distinct datasets for the time series chart."]
  else
    [RenderItem.seriesChart l r
      (seriesFor filtered l selected) (seriesFor filtered r selected)]

/-- Lines 81-103: the correlation view.  Identical axis choices yield only a
warning; an empty inner join yields only the no-overlap message; otherwise
the scatter/regression/Pearson branch runs on the merged table. -/
def corrView (filtered : List (String × List ObsRow)) (x y : String) :
    List RenderItem :=
  if x = y then
    [RenderItem.warningItem
      "Please select two distinct datasets for correlation."]
  else
    let merged := mergeInner (lookupTable filtered x) (lookupTable filtered y)
    if merged.isEmpty then
      [RenderItem.writeItem "No overlapping data for the selected datasets."]
    else
      [RenderItem.corrChart x y merged]

/-- Lines 19-103: one rerun of `main()` after the datasets are loaded and
the widgets have their current values.  `selected` is the multiselect value;
the body under `if selected_countries:` runs only when it is nonempty, and
there is no else branch. -/
def mainRender (datasets : List (String × List ObsRow))
    (selected : List String) (tsLeft tsRight corrX corrY : String) :
    List RenderItem :=
  RenderItem.title "World Bank Data Explorer" ::
  (if selected.isEmpty then [] else
    let filtered := datasets.map (fun nd => (nd.1, filterCountries selected nd.2))
    (RenderItem.subheader "Time Series Chart" ::
      timeSeriesView selected filtered tsLeft tsRight)
    ++ filtered.flatMap (fun nd =>
        [RenderItem.subheader (nd.1 ++ " Summary Statistics"),
         RenderItem.statsTable nd.1 nd.2])
    ++ (RenderItem.subheader "Correlation Between Two Datasets" ::
        corrView filtered corrX corrY))

/-- The `@st.cache_data` memo of `load_generic_data`, keyed by the argument
tuple (csv_path, value_name).  `fs` maps a path to the parsed file content. -/
abbrev Cache : Type :=
  List ((String × String) × List ObsRow)

/-- One call through the cache: return the stored table on a key hit,
otherwise compute, store and return. -/
def cachedLoad (fs : String → WideTable) (path valueName : String)
    (c : Cache) : List ObsRow × Cache :=
  match c.find? (fun e => e.1 == (path, valueName)) with
  | some e => (e.2, c)
  | none =>
      let r := load_generic_data (fs path)
      (r, ((path, valueName), r) :: c)

/-- A cache state is coherent when every stored entry is what
`load_generic_data` returns for its path. -/
def CacheCoherent (fs : String → WideTable) (c : Cache) : Prop :=
  ∀ e ∈ c, e.2 = load_generic_data (fs e.1.1)

/-- Validity of a wide input in the sense of the spec's loader policy: any
non-id column whose header does not parse as a numeric year carries only
missing cells (true of the World Bank export, whose sole non-year column is
the empty trailing one). -/
def NonNumericColsAllMissing (t : WideTable) : Prop :=
  ∀ cv ∈ t.cols, toNumericYear cv.1 = none → ∀ v ∈ cv.2, v = none

/-- True of the items `st.warning` and `st.write` emit: the non-fatal
warning and informational messages. -/
def isMessageItem : RenderItem → Bool
  | RenderItem.warningItem _ => true
  | RenderItem.writeItem _ => true
  | _ => false

/-- True of the chart items (`st.pyplot` targets). -/
def isChartItem : RenderItem → Bool
  | RenderItem.seriesChart .. => true
  | RenderItem.corrChart .. => true
  | _ => false

/-- True of the summary-statistics tables (`st.dataframe` targets). -/
def isStatsItem : RenderItem → Bool
  | RenderItem.statsTable _ _ => true
  | _ => false

/-- A concrete Sweden birth-rate row in the spec's running example. -/
def exampleRowId : RowId :=
  RowId.mk "Sweden" "SWE" "Birth Rate" "SP.DYN.CBRT.IN"

/-- A tiny valid wide table: one country row, one numeric year column
holding 14.5. -/
def exampleWide : WideTable :=
  WideTable.mk [exampleRowId] [("1960", [some (29 / 2 : Rat)])]

/-- A wide table whose trailing column has a non-numeric header but a
non-missing cell, exercising the Year-coercion order of the loader. -/
def nonNumericColWide : WideTable :=
  WideTable.mk [exampleRowId] [("1960", [some 14]), ("Unnamed: 68", [some 5])]

/-- One loaded dataset dict for exercising `main()` concretely. -/
def exampleDatasets : List (String × List ObsRow) :=
  [("Birth Rate", load_generic_data exampleWide)]

/-- A valid World Bank export in the loader-policy sense: a numeric year
column with a value and the trailing non-numeric column carrying only
missing cells. -/
def validWide : WideTable :=
  WideTable.mk [exampleRowId]
    [("1960", [some (29 / 2 : Rat)]), ("Unnamed: 68", [none])]

/-- A concrete observation with year 1960 under indicator A. -/
def rowA : ObsRow :=
  ObsRow.mk (RowId.mk "Sweden" "SWE" "A" "A1") (some 1960) (some 1)

/-- A concrete observation with year 1961 under indicator B, sharing no
(country, code, year) key with `rowA`. -/
def rowB : ObsRow :=
  ObsRow.mk (RowId.mk "Sweden" "SWE" "B" "B1") (some 1961) (some 2)

/-- Two filtered single-row datasets with disjoint join keys. -/
def disjointFiltered : List (String × List ObsRow) :=
  [("A", [rowA]), ("B", [rowB])]

/-- A file-content map that serves `exampleWide` for every path. -/
def exampleFs : String → WideTable :=
  fun _ => exampleWide

/- ------------------------------------------------------------------ -/
/- Shared helper lemmas                                               -/
/- ------------------------------------------------------------------ -/

/-- The sort comparison is transitive. -/
theorem obsLE_trans :
    ∀ a b c : ObsRow, obsLE a b = true → obsLE b c = true → obsLE a c = true := by
  intro a b c
  unfold obsLE yearLE
  cases a.year <;> cases b.year <;> cases c.year <;> simp
  all_goals omega

/-- The sort comparison is total. -/
theorem obsLE_total :
    ∀ a b : ObsRow, (obsLE a b || obsLE b a) = true := by
  intro a b
  unfold obsLE yearLE
  cases a.year <;> cases b.year <;> simp
  all_goals omega

/-- The loader's output is pairwise ordered by the Year comparison. -/
theorem load_generic_data_pairwise (t : WideTable) :
    (load_generic_data t).Pairwise (fun a b => obsLE a b = true) :=
  List.sorted_mergeSort obsLE_trans obsLE_total _

/- ------------------------------------------------------------------ -/
/- Claims                                                             -/
/- ------------------------------------------------------------------ -/

/-- C2: for every selection set S and dataset D, the filtered table
contains exactly the rows of D whose country name is in S, and its
country-name column is exactly S intersected with D's available
countries (hence a subset of S). -/
theorem filterCountries_exact (S : List String) (D : List ObsRow) :
    (∀ r, r ∈ filterCountries S D ↔ r ∈ D ∧ r.id.countryName ∈ S) ∧
    (∀ c, c ∈ (filterCountries S D).map (fun r => r.id.countryName) ↔
      c ∈ S ∧ c ∈ D.map (fun r => r.id.countryName)) := by
  constructor
  · intro r
    simp [filterCountries]
  · intro c
    simp only [filterCountries, List.mem_map, List.mem_filter]
    constructor
    · rintro ⟨r, ⟨hrD, hrS⟩, rfl⟩
      exact ⟨by simpa using hrS, ⟨r, hrD, rfl⟩⟩
    · rintro ⟨hcS, ⟨r, hrD, rfl⟩⟩
      exact ⟨r, ⟨hrD, by simpa using hcS⟩, rfl⟩

/-- C4: when the two indicators chosen for a dual view coincide, the view
emits exactly the warning and nothing else — no chart and, for the
correlation view, no merge and no correlation computation. -/
theorem identical_axes_warning (selected : List String)
    (filtered : List (String × List ObsRow)) (l r x y : String)
    (hlr : l = r) (hxy : x = y) :
    timeSeriesView selected filtered l r =
      [RenderItem.warningItem
        "Please select two distinct datasets for the time series chart."] ∧
    corrView filtered x y =
      [RenderItem.warningItem
        "Please select two distinct datasets for correlation."] := by
  subst hlr
  subst hxy
  exact ⟨by simp [timeSeriesView], by simp [corrView]⟩

/-- Witness for C4 at a concrete identical pair of choices. -/
theorem identical_axes_warning_witness :
    timeSeriesView ["Sweden"] exampleDatasets "Birth Rate" "Birth Rate" =
      [RenderItem.warningItem
        "Please select two distinct datasets for the time series chart."] ∧
    corrView exampleDatasets "Birth Rate" "Birth Rate" =
      [RenderItem.warningItem
        "Please select two distinct datasets for correlation."] :=
  identical_axes_warning ["Sweden"] exampleDatasets
    "Birth Rate" "Birth Rate" "Birth Rate" "Birth Rate" rfl rfl

/-- C7: the table returned by load_generic_data is sorted ascending by its
Year column (rows whose Year coerced to the missing marker compare last,
as in pandas), so in particular any two rows with numeric years appear in
ascending order. -/
theorem load_sorted_by_year (t : WideTable) :
    (load_generic_data t).Pairwise (fun a b => yearLE a.year b.year = true) ∧
    (load_generic_data t).Pairwise
      (fun a b => ∀ na nb, a.year = some na → b.year = some nb → na ≤ nb) := by
  have h := load_generic_data_pairwise t
  refine ⟨h.imp (fun hab => hab), h.imp ?_⟩
  intro a b hab na nb ha hb
  unfold obsLE yearLE at hab
  rw [ha, hb] at hab
  simpa using hab

/-- C9 (counterexample): with an empty country selection the script body is
skipped silently — the page holds only the title, and in particular no
informational or warning message is produced, contrary to the claim that
the case is handled as an informational message. -/
theorem empty_selection_no_message :
    mainRender exampleDatasets []
        "Birth Rate" "Real GDP (USD)" "Birth Rate" "Real GDP (USD)" =
      [RenderItem.title "World Bank Data Explorer"] ∧
    (mainRender exampleDatasets []
        "Birth Rate" "Real GDP (USD)" "Birth Rate" "Real GDP (USD)").filter
      isMessageItem = [] :=
  ⟨rfl, rfl⟩

/-- C9 (amended): with an empty country selection nothing beyond the page
title is rendered — no chart, no summary-statistics table, and also no
message of any kind; the early exit is silent and non-fatal. -/
theorem empty_selection_renders_title_only
    (datasets : List (String × List ObsRow)) (a b c d : String) :
    mainRender datasets [] a b c d =
      [RenderItem.title "World Bank Data Explorer"] ∧
    (mainRender datasets [] a b c d).filter isChartItem = [] ∧
    (mainRender datasets [] a b c d).filter isStatsItem = [] ∧
    (mainRender datasets [] a b c d).filter isMessageItem = [] :=
  ⟨rfl, rfl, rfl, rfl⟩

/-- C10: filtering a loaded dataset by selected countries yields a
subsequence of the loaded table (row order is preserved), and each
per-country series subsequently extracted for plotting is still ordered by
the loader's ascending-Year comparison. -/
theorem filterCountries_subsequence_sorted
    (t : WideTable) (sel : List String) (c : String) :
    (filterCountries sel (load_generic_data t)).Sublist
      (load_generic_data t) ∧
    ((filterCountries sel (load_generic_data t)).filter
        (fun r => r.id.countryName == c)).Pairwise
      (fun a b => yearLE a.year b.year = true) := by
  refine ⟨List.filter_sublist _, ?_⟩
  have hsub : ((filterCountries sel (load_generic_data t)).filter
      (fun r => r.id.countryName == c)).Sublist (load_generic_data t) :=
    (List.filter_sublist _).trans (List.filter_sublist _)
  exact (List.Pairwise.sublist hsub (load_generic_data_pairwise t)).imp
    (fun hab => hab)

/-- The key columns of a merged row are the shared key of the pair that
produced it. -/
theorem mergedKey_mergeRow (a b : ObsRow) :
    mergedKey (mergeRow a b) = obsKey a :=
  rfl

/-- Membership in the inner join: exactly the rows built from a pair of
input rows agreeing on the join key. -/
theorem mem_mergeInner (A B : List ObsRow) (m : MergedRow) :
    m ∈ mergeInner A B ↔
      ∃ a ∈ A, ∃ b ∈ B, obsKey a = obsKey b ∧ m = mergeRow a b := by
  simp only [mergeInner, List.mem_flatMap, List.mem_map, List.mem_filter,
    decide_eq_true_eq]
  constructor
  · rintro ⟨a, ha, b, ⟨hb, hkey⟩, rfl⟩
    exact ⟨a, ha, b, hb, hkey, rfl⟩
  · rintro ⟨a, ha, b, hb, hkey, rfl⟩
    exact ⟨a, ha, b, ⟨hb, hkey⟩, rfl⟩

/-- C3: the merged pair table of the correlation view contains exactly the
rows whose (country name, country code, year) key appears in both filtered
datasets — each merged row comes from a key-matching pair, a key occurs in
the merge iff it occurs on both sides, and the merge is empty iff the two
sides share no key. -/
theorem mergeInner_characterization (A B : List ObsRow) :
    (∀ m, m ∈ mergeInner A B ↔
      ∃ a ∈ A, ∃ b ∈ B, obsKey a = obsKey b ∧ m = mergeRow a b) ∧
    (∀ k, (∃ m ∈ mergeInner A B, mergedKey m = k) ↔
      (∃ a ∈ A, obsKey a = k) ∧ (∃ b ∈ B, obsKey b = k)) ∧
    (mergeInner A B = [] ↔
      ¬ ∃ k, (∃ a ∈ A, obsKey a = k) ∧ (∃ b ∈ B, obsKey b = k)) := by
  have hkeys : ∀ k, (∃ m ∈ mergeInner A B, mergedKey m = k) ↔
      (∃ a ∈ A, obsKey a = k) ∧ (∃ b ∈ B, obsKey b = k) := by
    intro k
    constructor
    · rintro ⟨m, hm, rfl⟩
      obtain ⟨a, ha, b, hb, hkey, rfl⟩ := (mem_mergeInner A B m).mp hm
      exact ⟨⟨a, ha, rfl⟩, ⟨b, hb, hkey.symm⟩⟩
    · rintro ⟨⟨a, ha, rfl⟩, ⟨b, hb, hkey⟩⟩
      exact ⟨mergeRow a b,
        (mem_mergeInner A B _).mpr ⟨a, ha, b, hb, hkey.symm, rfl⟩,
        mergedKey_mergeRow a b⟩
  refine ⟨mem_mergeInner A B, hkeys, ?_⟩
  rw [List.eq_nil_iff_forall_not_mem]
  constructor
  · rintro hnone ⟨k, hk⟩
    obtain ⟨m, hm, _⟩ := (hkeys k).mpr hk
    exact hnone m hm
  · intro hno m hm
    obtain ⟨a, ha, b, hb, hkey, rfl⟩ := (mem_mergeInner A B m).mp hm
    exact hno ⟨obsKey a, ⟨a, ha, rfl⟩, ⟨b, hb, hkey.symm⟩⟩

/-- C5: when the two distinct chosen indicators share no join key after
filtering, the merged table is empty and the correlation view emits exactly
the no-overlapping-data message — no scatter, no fit, no Pearson branch. -/
theorem no_overlap_reports_no_data
    (filtered : List (String × List ObsRow)) (x y : String) (hxy : x ≠ y)
    (hk : ∀ a ∈ lookupTable filtered x, ∀ b ∈ lookupTable filtered y,
      obsKey a ≠ obsKey b) :
    mergeInner (lookupTable filtered x) (lookupTable filtered y) = [] ∧
    corrView filtered x y =
      [RenderItem.writeItem "No overlapping data for the selected datasets."] := by
  have hempty :
      mergeInner (lookupTable filtered x) (lookupTable filtered y) = [] := by
    rw [List.eq_nil_iff_forall_not_mem]
    intro m hm
    obtain ⟨a, ha, b, hb, hkey, rfl⟩ :=
      (mem_mergeInner (lookupTable filtered x) (lookupTable filtered y) m).mp hm
    exact hk a ha b hb hkey
  refine ⟨hempty, ?_⟩
  simp [corrView, hxy, hempty]

/-- Witness for C5 at two concrete key-disjoint filtered datasets. -/
theorem no_overlap_reports_no_data_witness :
    mergeInner (lookupTable disjointFiltered "A")
        (lookupTable disjointFiltered "B") = [] ∧
    corrView disjointFiltered "A" "B" =
      [RenderItem.writeItem "No overlapping data for the selected datasets."] :=
  no_overlap_reports_no_data disjointFiltered "A" "B"
    (by decide) (by decide)

/-- C6: a cache-hitting call returns exactly what recomputing
`load_generic_data` on the file contents returns, and an immediately
repeated call with the same key returns the identical table: memoization
is behaviorally transparent. -/
theorem cachedLoad_transparent (fs : String → WideTable) (p v : String)
    (c : Cache) (hc : CacheCoherent fs c) :
    (cachedLoad fs p v c).1 = load_generic_data (fs p) ∧
    (cachedLoad fs p v (cachedLoad fs p v c).2).1 =
      (cachedLoad fs p v c).1 := by
  unfold cachedLoad
  cases hfind : c.find? (fun e => e.1 == (p, v)) with
  | some e =>
      have he : e ∈ c := List.mem_of_find?_eq_some hfind
      have hpe : e.1 = (p, v) := by
        have hbeq := List.find?_some hfind
        simpa using hbeq
      have hval : e.2 = load_generic_data (fs e.1.1) := hc e he
      dsimp only
      rw [hfind]
      dsimp only
      rw [hval, hpe]
      exact ⟨rfl, rfl⟩
  | none =>
      dsimp only
      have hhead :
          (((p, v), load_generic_data (fs p)) :: c).find?
              (fun e => e.1 == (p, v)) =
            some ((p, v), load_generic_data (fs p)) :=
        List.find?_cons_of_pos _ (by simp)
      rw [hhead]
      exact ⟨rfl, rfl⟩

/-- Witness for C6: two cached loads from the empty cache. -/
theorem cachedLoad_transparent_witness :
    (cachedLoad exampleFs "birth.csv" "Birth Rate" []).1 =
      load_generic_data (exampleFs "birth.csv") ∧
    (cachedLoad exampleFs "birth.csv" "Birth Rate"
        (cachedLoad exampleFs "birth.csv" "Birth Rate" []).2).1 =
      (cachedLoad exampleFs "birth.csv" "Birth Rate" []).1 :=
  cachedLoad_transparent exampleFs "birth.csv" "Birth Rate" []
    (fun e he => absurd he (List.not_mem_nil e))

/-- Membership in the melted frame: one row per (year column, data row)
pair of the wide table. -/
theorem mem_melt (t : WideTable) (lr : LongRow) :
    lr ∈ melt t ↔ ∃ cv ∈ t.cols, ∃ rv ∈ t.rows.zip cv.2,
      lr = LongRow.mk rv.1 cv.1 rv.2 := by
  simp only [melt, List.mem_flatten, List.mem_map]
  constructor
  · rintro ⟨l, ⟨cv, hcv, rfl⟩, hl⟩
    obtain ⟨rv, hrv, rfl⟩ := List.mem_map.mp hl
    exact ⟨cv, hcv, rv, hrv, rfl⟩
  · rintro ⟨cv, hcv, rv, hrv, rfl⟩
    exact ⟨_, ⟨cv, hcv, rfl⟩, List.mem_map.mpr ⟨rv, hrv, rfl⟩⟩

/-- Membership in the loader's output: the coercion of a melted row whose
value survived the dropna. -/
theorem mem_load_generic_data (t : WideTable) (r : ObsRow) :
    r ∈ load_generic_data t ↔
      ∃ lr ∈ melt t, lr.value.isSome = true ∧ r = coerceRow lr := by
  simp only [load_generic_data, List.mem_mergeSort, List.mem_map,
    List.mem_filter]
  constructor
  · rintro ⟨lr, ⟨hlr, hv⟩, rfl⟩
    exact ⟨lr, hlr, hv, rfl⟩
  · rintro ⟨lr, hlr, hv, rfl⟩
    exact ⟨lr, ⟨hlr, hv⟩, rfl⟩

/-- C1 (counterexample): on a wide input whose non-numeric trailing column
holds a non-missing value, the loader keeps that row: dropna runs on the
value column before the Year coercion, so the output contains a row whose
Year is the missing marker, against the claim that every output row has a
numeric Year and that non-numeric year columns are dropped by the
melt/dropna sequence. -/
theorem load_keeps_nonNumericYear_row :
    ObsRow.mk exampleRowId none (some 5) ∈
      load_generic_data nonNumericColWide ∧
    (ObsRow.mk exampleRowId none (some 5)).year = none ∧
    (ObsRow.mk exampleRowId none (some 5)).value.isSome = true := by
  refine ⟨?_, rfl, rfl⟩
  rw [mem_load_generic_data]
  exact ⟨LongRow.mk exampleRowId "Unnamed: 68" (some 5),
    (mem_melt _ _).mpr ⟨("Unnamed: 68", [some 5]), by decide,
      (exampleRowId, (some 5 : Option Rat)), by decide, rfl⟩,
    rfl, rfl⟩

/-- C1 (amended): every output row's value is non-missing; and provided
every non-numeric year column of the input carries only missing values (as
in the World Bank export, whose sole non-numeric column is the empty
trailing one) every output row's Year is numeric.  Without that proviso a
row from a non-numeric year column survives with a missing Year whenever
its value is non-missing. -/
theorem load_values_nonmissing_years_numeric (t : WideTable) :
    (∀ r ∈ load_generic_data t, r.value.isSome = true) ∧
    (NonNumericColsAllMissing t →
      ∀ r ∈ load_generic_data t, r.year.isSome = true) := by
  constructor
  · intro r hr
    obtain ⟨lr, _, hv, rfl⟩ := (mem_load_generic_data t r).mp hr
    exact hv
  · intro hvalid r hr
    obtain ⟨lr, hlr, hv, rfl⟩ := (mem_load_generic_data t r).mp hr
    obtain ⟨cv, hcv, rv, hrv, rfl⟩ := (mem_melt t lr).mp hlr
    cases hparse : toNumericYear cv.1 with
    | some n => simp [coerceRow, hparse]
    | none =>
        have hcell : rv.2 = none :=
          hvalid cv hcv hparse rv.2 (List.of_mem_zip hrv).2
        rw [show (LongRow.mk rv.1 cv.1 rv.2).value = rv.2 from rfl,
          hcell] at hv
        exact absurd hv (by simp)

/-- Witness for C1 at a concrete valid export. -/
theorem load_values_nonmissing_years_numeric_witness :
    NonNumericColsAllMissing validWide ∧
    (∀ r ∈ load_generic_data validWide, r.value.isSome = true) ∧
    (∀ r ∈ load_generic_data validWide, r.year.isSome = true) :=
  have h : NonNumericColsAllMissing validWide := by
    unfold NonNumericColsAllMissing
    decide
  ⟨h, (load_values_nonmissing_years_numeric validWide).1,
    (load_values_nonmissing_years_numeric validWide).2 h⟩

/-- The first components of a zip form a subsequence of the left list. -/
theorem map_fst_zip_sublist {α β : Type} (l₁ : List α) (l₂ : List β) :
    ((l₁.zip l₂).map Prod.fst).Sublist l₁ := by
  induction l₁ generalizing l₂ with
  | nil => simp
  | cons a l ih =>
      cases l₂ with
      | nil => simp
      | cons b l₂ => simpa using List.Sublist.cons₂ a (ih l₂)

/-- The (country code, coerced year) keys of the melted frame, block by
block: one block per year column, each key pairing a row's code with that
column's coerced header. -/
theorem melt_keys (t : WideTable) :
    (melt t).map (fun lr => (lr.id.countryCode, toNumericYear lr.year)) =
      (t.cols.map (fun cv => (t.rows.zip cv.2).map
        (fun rv => (rv.1.countryCode, toNumericYear cv.1)))).flatten := by
  rw [melt, List.map_flatten, List.map_map]
  congr 1
  apply List.map_congr_left
  intro cv _
  simp [Function.comp, List.map_map]

/-- Within one year column's block the keys are distinct, provided the
wide table has pairwise-distinct country codes. -/
theorem block_keys_nodup (t : WideTable)
    (hcodes : (t.rows.map (fun r => r.countryCode)).Nodup)
    (cv : String × List (Option Rat)) :
    ((t.rows.zip cv.2).map
      (fun rv => (rv.1.countryCode, toNumericYear cv.1))).Nodup := by
  have hrw : (t.rows.zip cv.2).map
      (fun rv => (rv.1.countryCode, toNumericYear cv.1)) =
      (((t.rows.zip cv.2).map Prod.fst).map (fun r => r.countryCode)).map
        (fun c => (c, toNumericYear cv.1)) := by
    simp [List.map_map, Function.comp]
  rw [hrw]
  have hsub : (((t.rows.zip cv.2).map Prod.fst).map
      (fun r => r.countryCode)).Sublist
      (t.rows.map (fun r => r.countryCode)) :=
    (map_fst_zip_sublist t.rows cv.2).map _
  have hnd : (((t.rows.zip cv.2).map Prod.fst).map
      (fun r => r.countryCode)).Nodup :=
    List.Nodup.sublist hsub hcodes
  exact hnd.map (fun a b hab => (Prod.mk.injEq _ _ _ _).mp hab |>.1)

/-- C8: when the wide input has pairwise-distinct country codes (one row
per country) and its column headers coerce to pairwise-distinct years (one
column per year), the table produced by load_generic_data has at most one
row per (country code, year) pair. -/
theorem load_at_most_one_row_per_code_year (t : WideTable)
    (hcodes : (t.rows.map (fun r => r.countryCode)).Nodup)
    (hyears : (t.cols.map (fun cv => toNumericYear cv.1)).Nodup) :
    ((load_generic_data t).map
      (fun r => (r.id.countryCode, r.year))).Nodup := by
  have hperm : ((load_generic_data t).map
      (fun r => (r.id.countryCode, r.year))).Perm
      ((((melt t).filter (fun lr => lr.value.isSome)).map coerceRow).map
        (fun r => (r.id.countryCode, r.year))) :=
    (List.mergeSort_perm _ _).map _
  rw [hperm.nodup_iff]
  have hcollapse : (((melt t).filter (fun lr => lr.value.isSome)).map
      coerceRow).map (fun r => (r.id.countryCode, r.year)) =
      ((melt t).filter (fun lr => lr.value.isSome)).map
        (fun lr => (lr.id.countryCode, toNumericYear lr.year)) := by
    simp [List.map_map, Function.comp, coerceRow]
  rw [hcollapse]
  have hsub : (((melt t).filter (fun lr => lr.value.isSome)).map
      (fun lr => (lr.id.countryCode, toNumericYear lr.year))).Sublist
      ((melt t).map
        (fun lr => (lr.id.countryCode, toNumericYear lr.year))) :=
    (List.filter_sublist _).map _
  refine List.Nodup.sublist hsub ?_
  rw [melt_keys, List.nodup_flatten]
  constructor
  · intro l hl
    obtain ⟨cv, _, rfl⟩ := List.mem_map.mp hl
    exact block_keys_nodup t hcodes cv
  · rw [List.pairwise_map]
    have hy : t.cols.Pairwise
        (fun cv cv' => toNumericYear cv.1 ≠ toNumericYear cv'.1) := by
      have hyp : (t.cols.map (fun cv => toNumericYear cv.1)).Pairwise
          (fun a b => a ≠ b) := hyears
      exact List.pairwise_map.mp hyp
    refine hy.imp ?_
    intro cv cv' hne p hp hq
    obtain ⟨rv, _, hpeq⟩ := List.mem_map.mp hp
    obtain ⟨rv', _, hqeq⟩ := List.mem_map.mp hq
    have h1 : toNumericYear cv.1 = p.2 := by rw [← hpeq]
    have h2 : toNumericYear cv'.1 = p.2 := by rw [← hqeq]
    exact hne (h1.trans h2.symm)

/-- Witness for C8 at a concrete valid export. -/
theorem load_at_most_one_row_per_code_year_witness :
    (validWide.rows.map (fun r => r.countryCode)).Nodup ∧
    (validWide.cols.map (fun cv => toNumericYear cv.1)).Nodup ∧
    ((load_generic_data validWide).map
      (fun r => (r.id.countryCode, r.year))).Nodup :=
  have h1 : (validWide.rows.map (fun r => r.countryCode)).Nodup := by decide
  have h2 : (validWide.cols.map (fun cv => toNumericYear cv.1)).Nodup := by
    decide
  ⟨h1, h2, load_at_most_one_row_per_code_year validWide h1 h2⟩

end WorldBankApp
